import Mathlib

/-!
Shallow embedding of `src/store/authStore.ts` (GigCalendar): a client-side
authentication and member-roster store.  Network effects are modelled by
passing the outcome of each HTTP request explicitly; the store state is a
record and each action is a pure transition on it.  A thrown exception is
modelled as an `Option String` component of the result (the message), `none`
meaning the action returned normally.
-/

namespace AuthStore

/-- A user record.  `password = none` models the absence of the `password`
key on the JavaScript object (as produced by destructuring it away). -/
structure User where
  id : String
  name : String
  email : String
  password : Option String
  role : String
deriving Repr, DecidableEq

/-- State of the store: session fields plus the cached roster
(`user`, `isAuthenticated`, `error`, `users` in `authStore.ts`). -/
structure AuthState where
  user : Option User
  isAuthenticated : Bool
  error : Option String
  users : List User
deriving Repr, DecidableEq

/-- The initial state returned by the store factory. -/
def initialState : AuthState :=
  { user := none, isAuthenticated := false, error := none, users := [] }

/-- Destructuring `password` away, as in `userWithoutPassword`: the record
with the `password` key removed. -/
def stripPassword (u : User) : User :=
  { u with password := none }

/-- Outcome of the `GET {API_URL}/members` request as `fetchUsers` observes
it: either a parsed 2xx body, or any failure (non-2xx, network error or
JSON parse error — all reach the same `catch`). -/
inductive FetchResult where
  | ok (users : List User)
  | failure
deriving Repr, DecidableEq

/-- Action `fetchUsers`: on success replace the roster with the response
body; on any failure set `error` to the fixed message.  It never throws. -/
def fetchUsers (s : AuthState) : FetchResult → AuthState
  | .ok users => { s with users := users }
  | .failure => { s with error := some "Failed to fetch users" }

/-- Lowercasing of a string, character by character, modelling the
JavaScript `toLowerCase` method. -/
def jsToLower (s : String) : String :=
  String.mk (s.data.map Char.toLower)

/-- Predicate of the `find` call in `login`: case-insensitive email match
and exact password match. -/
def loginMatches (email password : String) (u : User) : Bool :=
  jsToLower u.email == jsToLower email && u.password == some password

/-- Action `login`: refresh the roster via `fetchUsers`, then look for a
matching user.  On a match, store the user without its password, mark
authenticated and clear `error`, returning `true`; otherwise set `error`
to "Invalid email or password" and return `false`. -/
def login (s : AuthState) (email password : String) (fr : FetchResult) :
    Bool × AuthState :=
  let s₁ := fetchUsers s fr
  match s₁.users.find? (loginMatches email password) with
  | some u =>
      (true, { s₁ with user := some (stripPassword u),
                       isAuthenticated := true, error := none })
  | none => (false, { s₁ with error := some "Invalid email or password" })

/-- Side effects of `logout` beyond the state update: the storage key it
removes and the location it navigates to. -/
structure LogoutEffects where
  removedStorageKey : String
  navigateTo : String
deriving Repr, DecidableEq

/-- Action `logout`: remove the persisted `auth-storage` key, reset the
whole state, and navigate to the root path. -/
def logout (_s : AuthState) : AuthState × LogoutEffects :=
  ({ user := none, isAuthenticated := false, error := none, users := [] },
   { removedStorageKey := "auth-storage", navigateTo := "/" })

/-- Action `clearError`: reset `error` to `null`. -/
def clearError (s : AuthState) : AuthState :=
  { s with error := none }

/-- Action `getUsers`: the roster with the `password` key of every entry
stripped. -/
def getUsers (s : AuthState) : List User :=
  s.users.map stripPassword

/-- Action `setUsers`: direct roster replacement. -/
def setUsers (s : AuthState) (users : List User) : AuthState :=
  { s with users := users }

/-- The `dataUpdate` socket handler: a `{type, data}` event replaces the
roster with `data` exactly when `type == "members"`. -/
def dataUpdate (s : AuthState) (type : String) (data : List User) : AuthState :=
  if type == "members" then { s with users := data } else s

/-- Outcome of a request where the caller only inspects `response.ok`
(the POST of `addMember`, the PUT of `updateMember`): any 2xx is `ok`,
anything else (non-2xx or network error) reaches the `catch`. -/
inductive PostResult where
  | ok
  | failure
deriving Repr, DecidableEq

/-- The JSON body `addMember` serialises into the POST request: exactly its
argument (whose `role` the TypeScript type fixes to the literal
`"member"`). -/
def addMemberRequestBody (member : User) : User :=
  member

/-- Action `addMember`: POST the member; on success refresh the roster via
`fetchUsers` (whose own failure it swallows); on failure set `error` to
"Failed to add member".  It never throws. -/
def addMember (s : AuthState) (_member : User) (pr : PostResult)
    (fr : FetchResult) : AuthState :=
  match pr with
  | .ok => fetchUsers s fr
  | .failure => { s with error := some "Failed to add member" }

/-- Updatable fields (the TypeScript partial record without id and role),
each `some` when the key is present in the update object. -/
structure UserUpdates where
  name : Option String
  email : Option String
  password : Option String
deriving Repr, DecidableEq

/-- Spread-merge of an update object onto a record: fields present in the
update override the existing record. -/
def applyUpdates (u : User) (up : UserUpdates) : User :=
  { u with
    name := up.name.getD u.name
    email := up.email.getD u.email
    password := match up.password with
      | some p => some p
      | none => u.password }

/-- Action `updateMember`: look up the user by id (a miss throws, reaching
the `catch`); PUT the merged record; on success refresh the roster, on any
failure set `error` to "Failed to update member".  It never throws. -/
def updateMember (s : AuthState) (id : String) (_up : UserUpdates)
    (pr : PostResult) (fr : FetchResult) : AuthState :=
  match s.users.find? (fun u => u.id == id) with
  | none => { s with error := some "Failed to update member" }
  | some _ =>
      match pr with
      | .ok => fetchUsers s fr
      | .failure => { s with error := some "Failed to update member" }

/-- Outcome of the DELETE request as `removeMember` observes it:
`resp ok body` is a completed HTTP response (`ok` = 2xx) whose JSON body
parsed to `body` (`none` when parsing failed, `some e` when it parsed with
`e` the value of its `error` key, absent when `e = none`);
`networkError msg` is a rejected `fetch` whose `Error` carries `msg`. -/
inductive DeleteResponse where
  | resp (ok : Bool) (body : Option (Option String))
  | networkError (message : String)
deriving Repr, DecidableEq

/-- Message selected by `data?.error || "Failed to remove member"`: the
default is used when the body is unparsed or null, the `error` key is
absent, or its value is the empty string (falsy in JavaScript). -/
def jsErrorMessage (body : Option (Option String)) : String :=
  match body with
  | some (some e) => if e == "" then "Failed to remove member" else e
  | _ => "Failed to remove member"

/-- Action `removeMember`: DELETE by id.  On a 2xx response, filter the id
out of the roster and clear `error`.  On a non-2xx response, throw the
body error message or the default; on a network error the original
exception propagates.  The `catch` stores the message of the thrown
exception in `error` and rethrows it — the second component is the thrown
message, `none` meaning a normal return. -/
def removeMember (s : AuthState) (id : String) (r : DeleteResponse) :
    AuthState × Option String :=
  match r with
  | .resp true _ =>
      ({ s with users := s.users.filter (fun u => u.id != id), error := none },
       none)
  | .resp false body =>
      let msg := jsErrorMessage body
      ({ s with error := some msg }, some msg)
  | .networkError msg => ({ s with error := some msg }, some msg)

/-- One invocation of a store operation or push event, carrying the
outcomes of the network requests it performs. -/
inductive Op where
  | login (email password : String) (fr : FetchResult)
  | logout
  | clearError
  | fetchUsers (fr : FetchResult)
  | addMember (member : User) (pr : PostResult) (fr : FetchResult)
  | updateMember (id : String) (up : UserUpdates) (pr : PostResult)
      (fr : FetchResult)
  | removeMember (id : String) (r : DeleteResponse)
  | setUsers (users : List User)
  | dataUpdate (type : String) (data : List User)
deriving Repr, DecidableEq

/-- The state after running one operation. -/
def applyOp (s : AuthState) : Op → AuthState
  | .login e p fr => (login s e p fr).2
  | .logout => (logout s).1
  | .clearError => clearError s
  | .fetchUsers fr => fetchUsers s fr
  | .addMember m pr fr => addMember s m pr fr
  | .updateMember id up pr fr => updateMember s id up pr fr
  | .removeMember id r => (removeMember s id r).1
  | .setUsers us => setUsers s us
  | .dataUpdate t d => dataUpdate s t d

/-- The exception an operation propagates to its caller, if any: every
operation but `removeMember` wraps its body in a `catch` that does not
rethrow (and the synchronous ones cannot throw). -/
def opThrown (s : AuthState) : Op → Option String
  | .removeMember id r => (removeMember s id r).2
  | _ => none

/-- Sample roster entry used to instantiate the theorems below. -/
def alice : User :=
  { id := "1", name := "Alice", email := "a@x.com",
    password := some "p1", role := "member" }

/-- Second sample roster entry. -/
def bob : User :=
  { id := "2", name := "Bob", email := "b@x.com",
    password := some "p2", role := "member" }

/-- Refreshing the roster does not touch the session identity. -/
lemma fetchUsers_user (s : AuthState) (fr : FetchResult) :
    (fetchUsers s fr).user = s.user := by
  cases fr <;> rfl

/-- Refreshing the roster does not touch the authentication flag. -/
lemma fetchUsers_isAuth (s : AuthState) (fr : FetchResult) :
    (fetchUsers s fr).isAuthenticated = s.isAuthenticated := by
  cases fr <;> rfl

/-- C1: when, after the internal `fetchUsers` refresh, the roster contains
a user whose email matches the given email case-insensitively and whose
password equals the given password exactly, `login` returns `true`, sets
the session user to such a matching user with its `password` field removed
and every other field intact, sets `isAuthenticated` to `true`, and sets
`error` to `null`. -/
theorem login_success_authenticates (s : AuthState) (email password : String)
    (fr : FetchResult) (u : User) (hu : u ∈ (fetchUsers s fr).users)
    (hm : loginMatches email password u = true) :
    (login s email password fr).1 = true ∧
    (login s email password fr).2.isAuthenticated = true ∧
    (login s email password fr).2.error = none ∧
    ∃ v, v ∈ (fetchUsers s fr).users ∧ loginMatches email password v = true ∧
      (login s email password fr).2.user =
        some { id := v.id, name := v.name, email := v.email,
               password := none, role := v.role } := by
  have hex : ((fetchUsers s fr).users.find? (loginMatches email password)).isSome := by
    rw [List.find?_isSome]
    exact ⟨u, hu, hm⟩
  obtain ⟨v, hv⟩ := Option.isSome_iff_exists.mp hex
  have hvmem := List.mem_of_find?_eq_some hv
  have hvpred := List.find?_some hv
  refine ⟨?_, ?_, ?_, v, hvmem, hvpred, ?_⟩
  · simp only [login, hv]
  · simp only [login, hv]
  · simp only [login, hv]
  · simp only [login, hv]
    cases v
    rfl

/-- Closed instance of C1: the concrete scenario from the specification,
with roster `[alice]` fetched and credentials `A@X.com` / `p1`. -/
theorem login_success_authenticates_witness :
    (login initialState "A@X.com" "p1" (FetchResult.ok [alice])).1 = true ∧
    (login initialState "A@X.com" "p1" (FetchResult.ok [alice])).2.isAuthenticated = true ∧
    (login initialState "A@X.com" "p1" (FetchResult.ok [alice])).2.error = none ∧
    ∃ v, v ∈ (fetchUsers initialState (FetchResult.ok [alice])).users ∧
      loginMatches "A@X.com" "p1" v = true ∧
      (login initialState "A@X.com" "p1" (FetchResult.ok [alice])).2.user =
        some { id := v.id, name := v.name, email := v.email,
               password := none, role := v.role } :=
  login_success_authenticates initialState "A@X.com" "p1"
    (FetchResult.ok [alice]) alice (by decide) (by decide)

/-- C2: when no user of the refreshed roster matches the credentials,
`login` returns `false`, sets `error` to "Invalid email or password", and
leaves `user` and `isAuthenticated` unchanged (an anonymous session stays
anonymous); the model of `login` is a total function, so it never throws. -/
theorem login_failure_stays_anonymous (s : AuthState) (email password : String)
    (fr : FetchResult)
    (h : ∀ u ∈ (fetchUsers s fr).users, loginMatches email password u = false) :
    (login s email password fr).1 = false ∧
    (login s email password fr).2.error = some "Invalid email or password" ∧
    (login s email password fr).2.user = s.user ∧
    (login s email password fr).2.isAuthenticated = s.isAuthenticated ∧
    opThrown s (Op.login email password fr) = none := by
  have hnone : (fetchUsers s fr).users.find? (loginMatches email password) = none := by
    rw [List.find?_eq_none]
    intro x hx
    simp [h x hx]
  refine ⟨?_, ?_, ?_, ?_, rfl⟩ <;>
    simp [login, hnone, fetchUsers_user, fetchUsers_isAuth]

/-- Closed instance of C2: a wrong password against the fetched roster
`[alice]` fails and leaves the session anonymous. -/
theorem login_failure_stays_anonymous_witness :
    (login initialState "a@x.com" "wrong" (FetchResult.ok [alice])).1 = false ∧
    (login initialState "a@x.com" "wrong" (FetchResult.ok [alice])).2.error =
      some "Invalid email or password" ∧
    (login initialState "a@x.com" "wrong" (FetchResult.ok [alice])).2.user =
      initialState.user ∧
    (login initialState "a@x.com" "wrong" (FetchResult.ok [alice])).2.isAuthenticated =
      initialState.isAuthenticated ∧
    opThrown initialState (Op.login "a@x.com" "wrong" (FetchResult.ok [alice])) = none :=
  login_failure_stays_anonymous initialState "a@x.com" "wrong"
    (FetchResult.ok [alice]) (by decide)

/-- C3: `getUsers` returns exactly the roster entries, in order, each with
the `password` field removed and every other field unchanged; it is a pure
function of the state, so it performs no network call and leaves the stored
roster (passwords included) untouched. -/
theorem getUsers_strips_passwords (s : AuthState) :
    (getUsers s).length = s.users.length ∧
    (∀ i : Nat, (getUsers s)[i]? = (s.users[i]?).map stripPassword) ∧
    (∀ p, p ∈ getUsers s → p.password = none) ∧
    (∀ u : User, (stripPassword u).id = u.id ∧ (stripPassword u).name = u.name ∧
      (stripPassword u).email = u.email ∧ (stripPassword u).role = u.role) := by
  refine ⟨by simp [getUsers], fun i => by simp [getUsers], ?_, fun u => ⟨rfl, rfl, rfl, rfl⟩⟩
  intro p hp
  obtain ⟨u, _, rfl⟩ := List.mem_map.mp hp
  rfl

/-- Closed instance of C3 on the roster `[alice, bob]`. -/
theorem getUsers_strips_passwords_witness :
    (getUsers { initialState with users := [alice, bob] })[0]? =
      some (stripPassword alice) ∧
    (stripPassword alice).password = none ∧
    (stripPassword alice).email = alice.email := by
  have h := getUsers_strips_passwords { initialState with users := [alice, bob] }
  refine ⟨?_, ?_, (h.2.2.2 alice).2.2.1⟩
  · have := h.2.1 0
    simpa using this
  · exact h.2.2.1 (stripPassword alice) (by decide)

/-- C4: from any prior state, `logout` removes the persisted storage key
`auth-storage`, resets the state to an anonymous session with an empty
roster and no error, and navigates to the application root. -/
theorem logout_resets_everything (s : AuthState) :
    logout s =
      ({ user := none, isAuthenticated := false, error := none, users := [] },
       { removedStorageKey := "auth-storage", navigateTo := "/" }) := rfl

/-- C5: on a success (2xx) response, `removeMember id` removes exactly the
roster entries whose id equals `id` — the remaining entries are unchanged,
keep their original order (the result is a sublist of the roster), and
every non-targeted entry survives — and `error` is set to `null`. -/
theorem removeMember_success_filters (s : AuthState) (id : String)
    (body : Option (Option String)) :
    (removeMember s id (DeleteResponse.resp true body)).1.users =
      s.users.filter (fun u => u.id != id) ∧
    List.Sublist (removeMember s id (DeleteResponse.resp true body)).1.users s.users ∧
    (∀ u, u ∈ s.users → u.id ≠ id →
      u ∈ (removeMember s id (DeleteResponse.resp true body)).1.users) ∧
    (∀ u, u ∈ (removeMember s id (DeleteResponse.resp true body)).1.users →
      u.id ≠ id) ∧
    (removeMember s id (DeleteResponse.resp true body)).1.error = none ∧
    (removeMember s id (DeleteResponse.resp true body)).1.user = s.user ∧
    (removeMember s id (DeleteResponse.resp true body)).1.isAuthenticated =
      s.isAuthenticated := by
  refine ⟨rfl, ?_, ?_, ?_, rfl, rfl, rfl⟩
  · exact List.filter_sublist s.users
  · intro u hu hne
    simp only [removeMember, List.mem_filter]
    exact ⟨hu, by simpa using hne⟩
  · intro u hu
    have := (List.mem_filter.mp hu).2
    simpa using this

/-- Closed instance of C5: deleting id `1` from the roster `[alice, bob]`
keeps exactly `bob` and clears the error. -/
theorem removeMember_success_filters_witness :
    (removeMember { initialState with users := [alice, bob] } "1"
        (DeleteResponse.resp true none)).1.users = [bob] ∧
    bob ∈ (removeMember { initialState with users := [alice, bob] } "1"
        (DeleteResponse.resp true none)).1.users ∧
    (removeMember { initialState with users := [alice, bob] } "1"
        (DeleteResponse.resp true none)).1.error = none := by
  have h := removeMember_success_filters
    { initialState with users := [alice, bob] } "1" none
  refine ⟨?_, h.2.2.1 bob (by decide) (by decide), h.2.2.2.2.1⟩
  rw [h.1]
  decide

/-- C6 counterexample: the claim predicts that on a DELETE failure with no
server-provided body message the error field holds the default
"Failed to remove member"; but on a network error (no response body at
all) the code stores the message of the thrown exception instead — here
"Failed to fetch". -/
theorem removeMember_network_message_cex :
    (removeMember initialState "1"
        (DeleteResponse.networkError "Failed to fetch")).1.error =
      some "Failed to fetch" ∧
    (removeMember initialState "1"
        (DeleteResponse.networkError "Failed to fetch")).1.error ≠
      some "Failed to remove member" := by
  decide

/-- C6 amended: on any DELETE failure the roster is unchanged and the
stored error message is rethrown to the caller; on a non-2xx response that
message is the error string of the response body when present and
non-empty, otherwise the default "Failed to remove member"; on a network
error it is the message of the thrown exception.  `removeMember` is the
only operation whose failure propagates: every other operation never
throws. -/
theorem removeMember_failure_rethrows (s : AuthState) (id : String) :
    (∀ body,
      (removeMember s id (DeleteResponse.resp false body)).1.users = s.users ∧
      (removeMember s id (DeleteResponse.resp false body)).1.error =
        some (jsErrorMessage body) ∧
      (removeMember s id (DeleteResponse.resp false body)).2 =
        some (jsErrorMessage body)) ∧
    (∀ msg,
      (removeMember s id (DeleteResponse.networkError msg)).1.users = s.users ∧
      (removeMember s id (DeleteResponse.networkError msg)).1.error = some msg ∧
      (removeMember s id (DeleteResponse.networkError msg)).2 = some msg) ∧
    (∀ op : Op, (∀ i r, op ≠ Op.removeMember i r) → opThrown s op = none) := by
  refine ⟨fun body => ⟨rfl, rfl, rfl⟩, fun msg => ⟨rfl, rfl, rfl⟩, ?_⟩
  intro op hop
  cases op with
  | removeMember i r => exact absurd rfl (hop i r)
  | _ => rfl

/-- Closed instance of the amended C6: a non-2xx response with body error
"Boom" stores and rethrows "Boom", and `logout` propagates no exception. -/
theorem removeMember_failure_rethrows_witness :
    (removeMember initialState "1"
        (DeleteResponse.resp false (some (some "Boom")))).1.error = some "Boom" ∧
    (removeMember initialState "1"
        (DeleteResponse.resp false (some (some "Boom")))).2 = some "Boom" ∧
    opThrown initialState Op.logout = none := by
  have h := removeMember_failure_rethrows initialState "1"
  have hmsg : jsErrorMessage (some (some "Boom")) = "Boom" := by decide
  refine ⟨?_, ?_, h.2.2 Op.logout (fun i r hc => Op.noConfusion hc)⟩
  · rw [(h.1 (some (some "Boom"))).2.1, hmsg]
  · rw [(h.1 (some (some "Boom"))).2.2, hmsg]

/-- C7: when the GET of `fetchUsers` fails (non-2xx, network or parse
error) the roster is unchanged and `error` becomes the fixed message
"Failed to fetch users"; on success the roster is replaced wholesale by
the response body; `fetchUsers` never throws to its caller. -/
theorem fetchUsers_failure_policy (s : AuthState) :
    (fetchUsers s FetchResult.failure).users = s.users ∧
    (fetchUsers s FetchResult.failure).error = some "Failed to fetch users" ∧
    (∀ body, (fetchUsers s (FetchResult.ok body)).users = body) ∧
    (∀ fr, opThrown s (Op.fetchUsers fr) = none) :=
  ⟨rfl, rfl, fun _ => rfl, fun _ => rfl⟩

/-- C8: a push event of type "members" replaces the roster with exactly
the payload and leaves `user`, `isAuthenticated` and `error` untouched; an
event of any other type leaves the whole state unchanged. -/
theorem dataUpdate_replaces_roster (s : AuthState) (data : List User) :
    (dataUpdate s "members" data).users = data ∧
    (dataUpdate s "members" data).user = s.user ∧
    (dataUpdate s "members" data).isAuthenticated = s.isAuthenticated ∧
    (dataUpdate s "members" data).error = s.error ∧
    (∀ t : String, t ≠ "members" → dataUpdate s t data = s) := by
  refine ⟨rfl, rfl, rfl, rfl, ?_⟩
  intro t ht
  simp [dataUpdate, ht]

/-- Closed instance of C8: a "members" event installs the payload and a
"gigs" event changes nothing. -/
theorem dataUpdate_replaces_roster_witness :
    (dataUpdate { initialState with users := [alice] } "members" [bob]).users =
      [bob] ∧
    dataUpdate { initialState with users := [alice] } "gigs" [bob] =
      { initialState with users := [alice] } := by
  have h := dataUpdate_replaces_roster { initialState with users := [alice] } [bob]
  exact ⟨h.1, h.2.2.2.2 "gigs" (by decide)⟩

/-- C9: `addMember` POSTs exactly its argument as the request body, whose
`role` is the literal "member" (forced by the argument type); on a success
response it refreshes the roster via `fetchUsers`; on failure it sets
`error` to "Failed to add member"; in either case it swallows exceptions
rather than throwing. -/
theorem addMember_posts_member (s : AuthState) (member : User)
    (fr : FetchResult) (hrole : member.role = "member") :
    addMemberRequestBody member = member ∧
    (addMemberRequestBody member).role = "member" ∧
    addMember s member PostResult.ok fr = fetchUsers s fr ∧
    addMember s member PostResult.failure fr =
      { s with error := some "Failed to add member" } ∧
    (∀ pr, opThrown s (Op.addMember member pr fr) = none) :=
  ⟨rfl, hrole, rfl, rfl, fun _ => rfl⟩

/-- Closed instance of C9: posting `bob` with a successful POST and fetch
refresh installs the fetched roster, and a failed POST records the error. -/
theorem addMember_posts_member_witness :
    (addMemberRequestBody bob).role = "member" ∧
    addMember initialState bob PostResult.ok (FetchResult.ok [alice, bob]) =
      fetchUsers initialState (FetchResult.ok [alice, bob]) ∧
    addMember initialState bob PostResult.failure (FetchResult.ok [alice, bob]) =
      { initialState with error := some "Failed to add member" } := by
  have h := addMember_posts_member initialState bob
    (FetchResult.ok [alice, bob]) (by decide)
  exact ⟨h.2.1, h.2.2.1, h.2.2.2.1⟩

/-- A failed login leaves the session identity untouched. -/
lemma login_session_of_false (s : AuthState) (e p : String) (fr : FetchResult)
    (h : (login s e p fr).1 = false) :
    (login s e p fr).2.user = s.user ∧
    (login s e p fr).2.isAuthenticated = s.isAuthenticated := by
  rcases hf : (fetchUsers s fr).users.find? (loginMatches e p) with _ | u
  · constructor <;> simp [login, hf, fetchUsers_user, fetchUsers_isAuth]
  · simp [login, hf] at h

/-- A successful login marks the session authenticated. -/
lemma login_isAuth_of_true (s : AuthState) (e p : String) (fr : FetchResult)
    (h : (login s e p fr).1 = true) :
    (login s e p fr).2.isAuthenticated = true := by
  rcases hf : (fetchUsers s fr).users.find? (loginMatches e p) with _ | u
  · simp [login, hf] at h
  · simp [login, hf]

/-- Every single operation either preserves the session identity
(`user` and `isAuthenticated`) or is a logout or a successful login. -/
lemma applyOp_session_cases (s : AuthState) (op : Op) :
    ((applyOp s op).user = s.user ∧
     (applyOp s op).isAuthenticated = s.isAuthenticated) ∨
    op = Op.logout ∨
    (∃ e p fr, op = Op.login e p fr ∧ (login s e p fr).1 = true) := by
  cases op with
  | login e p fr =>
      cases hb : (login s e p fr).1 with
      | false => exact Or.inl (login_session_of_false s e p fr hb)
      | true => exact Or.inr (Or.inr ⟨e, p, fr, rfl, hb⟩)
  | logout => exact Or.inr (Or.inl rfl)
  | clearError => exact Or.inl ⟨rfl, rfl⟩
  | fetchUsers fr => exact Or.inl ⟨fetchUsers_user s fr, fetchUsers_isAuth s fr⟩
  | addMember m pr fr =>
      cases pr with
      | ok => exact Or.inl ⟨fetchUsers_user s fr, fetchUsers_isAuth s fr⟩
      | failure => exact Or.inl ⟨rfl, rfl⟩
  | updateMember id up pr fr =>
      refine Or.inl ?_
      rcases hf : s.users.find? (fun u => u.id == id) with _ | u
      · exact ⟨by simp [applyOp, updateMember, hf],
               by simp [applyOp, updateMember, hf]⟩
      · cases pr with
        | ok =>
            exact ⟨by simp [applyOp, updateMember, hf, fetchUsers_user],
                   by simp [applyOp, updateMember, hf, fetchUsers_isAuth]⟩
        | failure =>
            exact ⟨by simp [applyOp, updateMember, hf],
                   by simp [applyOp, updateMember, hf]⟩
  | removeMember id r =>
      cases r with
      | resp ok body => cases ok <;> exact Or.inl ⟨rfl, rfl⟩
      | networkError m => exact Or.inl ⟨rfl, rfl⟩
  | setUsers us => exact Or.inl ⟨rfl, rfl⟩
  | dataUpdate t d =>
      refine Or.inl ?_
      simp only [applyOp, dataUpdate]
      split
      · exact ⟨rfl, rfl⟩
      · exact ⟨rfl, rfl⟩

/-- C10: in any state, any operation or push event that changes `user` or
`isAuthenticated` is a logout or a successful login; the session flag goes
from `false` to `true` only through a successful login and from `true` to
`false` only through logout.  Quantifying over every state covers every
state reachable from the initial one by any sequence of operations. -/
theorem session_state_machine (s : AuthState) (op : Op) :
    ((applyOp s op).user ≠ s.user ∨
        (applyOp s op).isAuthenticated ≠ s.isAuthenticated →
      op = Op.logout ∨
        ∃ e p fr, op = Op.login e p fr ∧ (login s e p fr).1 = true) ∧
    (s.isAuthenticated = false → (applyOp s op).isAuthenticated = true →
      ∃ e p fr, op = Op.login e p fr ∧ (login s e p fr).1 = true) ∧
    (s.isAuthenticated = true → (applyOp s op).isAuthenticated = false →
      op = Op.logout) := by
  rcases applyOp_session_cases s op with hpres | hlogout | hlogin
  · refine ⟨fun hch => ?_, fun h0 h1 => ?_, fun h1 h0 => ?_⟩
    · rcases hch with hc | hc
      · exact absurd hpres.1 hc
      · exact absurd hpres.2 hc
    · rw [hpres.2, h0] at h1
      simp at h1
    · rw [hpres.2, h1] at h0
      simp at h0
  · subst hlogout
    refine ⟨fun _ => Or.inl rfl, fun h0 h1 => ?_, fun _ _ => rfl⟩
    simp [applyOp, logout] at h1
  · obtain ⟨e, p, fr, rfl, htrue⟩ := hlogin
    refine ⟨fun _ => Or.inr ⟨e, p, fr, rfl, htrue⟩,
            fun _ _ => ⟨e, p, fr, rfl, htrue⟩, fun h1 h0 => ?_⟩
    have hA := login_isAuth_of_true s e p fr htrue
    rw [show applyOp s (Op.login e p fr) = (login s e p fr).2 from rfl, hA] at h0
    simp at h0

/-- Closed instance of C10: from the anonymous initial state, the flip of
`isAuthenticated` to `true` caused by logging in as `alice` is accounted
for by a successful login. -/
theorem session_state_machine_witness :
    ∃ e p fr, Op.login "A@X.com" "p1" (FetchResult.ok [alice]) =
        Op.login e p fr ∧
      (login initialState e p fr).1 = true :=
  (session_state_machine initialState
      (Op.login "A@X.com" "p1" (FetchResult.ok [alice]))).2.1
    rfl (by decide)

end AuthStore
